import Mathlib

/-! Verification of the mockup-compositing engine of ldzmockapi.

The development shallowly embeds the image pipeline of `image_utils.py`
(sequential path), `image_utils_fast.py` (thread-pooled path),
`image_utils_gpu.py` (tensor path) and the batch loop of `app.py` /
`app_fast.py`.  Pixels are exact naturals (8-bit channel values) on the
PIL side and exact rationals (normalised to the unit interval) on the
tensor side; Python float arithmetic is idealised as exact rational
arithmetic, and resampling kernels (LANCZOS, BILINEAR, BICUBIC) are
parameters of the pipeline, since no claim depends on resampled pixel
values.  Fallible Python code is embedded in `Except`; in-place mutation
is embedded by returning the post-call state of the mutated argument
alongside the returned value. -/

namespace Ldz

/-- Python `int()` on an exact rational: truncation toward zero. -/
def pyInt (q : ℚ) : ℤ := if 0 ≤ q then ⌊q⌋ else ⌈q⌉

/-- Round half up, used only to state the spec's `round(ow*scale)`
formula (the inputs at which it is compared are never half-integers, so
the difference from Python's round-half-to-even is immaterial). -/
def ratRound (q : ℚ) : ℤ := ⌊q + 1 / 2⌋

/-- PIL image mode.  Every image decoded by the repository is converted
to RGBA; the other modes exist because `paste` and the JPEG encoder
branch on the mode. -/
inductive PMode
  | RGBA
  | RGB
  | L
  deriving DecidableEq

/-- One 8-bit RGBA pixel (channel values 0..255). -/
structure Pixel where
  r : ℕ
  g : ℕ
  b : ℕ
  a : ℕ
  deriving DecidableEq

/-- A PIL raster: mode, size, and the pixel buffer as a function. -/
structure Image where
  mode : PMode
  w : ℕ
  h : ℕ
  pix : ℕ → ℕ → Pixel

/-- A resampling filter: source image, target width and height, pixel
coordinate, producing the resampled pixel.  LANCZOS and BILINEAR are
instances; no claim constrains their pixel values. -/
abbrev Resampler := Image → ℕ → ℕ → ℕ → ℕ → Pixel

/-- An expanding rotation kernel (`Image.rotate(angle, expand=True)`)
for a nonzero angle. -/
abbrev RotateKernel := Image → ℚ → Image

/-- Reason recorded for a failed fetch. -/
inductive LoadReason
  | network
  | httpStatus
  | decode
  | timeout
  deriving DecidableEq

/-- The Python exceptions the embedded pipeline can raise.  `loadErr` is
the wrapper exception raised by `load_image_from_url` (the spec's
LoadError); the rest are raised by arithmetic, PIL and torch. -/
inductive PyErr
  | loadErr (r : LoadReason)
  | zeroDivisionErr
  | valueErr
  | osErr
  | runtimeErr
  deriving DecidableEq

/-- Pillow's MULDIV255 macro: `round(a*b/255)` computed as
`tmp = a*b + 128; ((tmp >> 8) + tmp) >> 8`. -/
def muldiv255 (a b : ℕ) : ℕ := ((a * b + 128) / 256 + (a * b + 128)) / 256

/-- Pillow's BLEND macro for a masked paste of band value `in2` over
`in1` with mask byte `m`. -/
def blendByte (in1 in2 m : ℕ) : ℕ := muldiv255 in1 (255 - m) + muldiv255 in2 m

/-- The per-pixel effect of `base.paste(ov, box, ov)` inside the overlap:
every band, the alpha band included, is blended with the overlay's alpha
byte as mask. -/
def pilBlendPixel (bp o : Pixel) : Pixel :=
  Pixel.mk (blendByte bp.r o.r o.a) (blendByte bp.g o.g o.a)
    (blendByte bp.b o.b o.a) (blendByte bp.a o.a o.a)

/-- `result.paste(overlay, (px, py), overlay)` for an RGBA overlay:
Pillow clips the paste box to the base raster and mask-blends each band
inside the clipped box; pixels outside it are untouched. -/
def pilPasteMask (base ov : Image) (px py : ℤ) : Image :=
  Image.mk base.mode base.w base.h (fun X Y =>
    if X < base.w ∧ Y < base.h ∧
        px ≤ (X : ℤ) ∧ (X : ℤ) < px + (ov.w : ℤ) ∧
        py ≤ (Y : ℤ) ∧ (Y : ℤ) < py + (ov.h : ℤ) then
      pilBlendPixel (base.pix X Y)
        (ov.pix ((X : ℤ) - px).toNat ((Y : ℤ) - py).toNat)
    else base.pix X Y)

/-- `result.paste(overlay, (px, py))` without a mask: a raw copy over the
clipped box. -/
def pilPasteCopy (base ov : Image) (px py : ℤ) : Image :=
  Image.mk base.mode base.w base.h (fun X Y =>
    if X < base.w ∧ Y < base.h ∧
        px ≤ (X : ℤ) ∧ (X : ℤ) < px + (ov.w : ℤ) ∧
        py ≤ (Y : ℤ) ∧ (Y : ℤ) < py + (ov.h : ℤ) then
      ov.pix ((X : ℤ) - px).toNat ((Y : ℤ) - py).toNat
    else base.pix X Y)

/-- `image.resize((w, h), filter)`: PIL raises ValueError on a negative
size and otherwise returns a fresh raster of exactly the requested size
filled by the resampling filter. -/
def pilResize (res : Resampler) (img : Image) (w h : ℤ) : Except PyErr Image :=
  if w < 0 ∨ h < 0 then Except.error PyErr.valueErr
  else Except.ok (Image.mk img.mode w.toNat h.toNat (res img w.toNat h.toNat))

/-- `ImageCompositor.resize_image` (image_utils.py:31).  Computes the
aspect ratios by float division (ZeroDivisionError when a denominator is
zero), truncates the fitted dimensions with `int()`, and resizes.  The
guard on `imgAspect = 0` models the `width / img_aspect` division. -/
def resize_image (res : Resampler) (image : Image) (width height : ℚ)
    (maintain_aspect : Bool) : Except PyErr Image :=
  if maintain_aspect = false then
    pilResize res image (pyInt width) (pyInt height)
  else if image.h = 0 then Except.error PyErr.zeroDivisionErr
  else if height = 0 then Except.error PyErr.zeroDivisionErr
  else
    let imgAspect : ℚ := (image.w : ℚ) / (image.h : ℚ)
    let targetAspect : ℚ := width / height
    if imgAspect > targetAspect then
      if imgAspect = 0 then Except.error PyErr.zeroDivisionErr
      else pilResize res image (pyInt width) (pyInt (width / imgAspect))
    else
      pilResize res image (pyInt (height * imgAspect)) (pyInt height)

/-- `ImageCompositor.rotate_image` (image_utils.py:63): identity at angle
zero, otherwise an expanding BICUBIC rotation. -/
def rotate_image (rot : RotateKernel) (image : Image) (angle : ℚ) : Image :=
  if angle = 0 then image else rot image angle

/-- The pixel buffer written by `alpha.point(lambda p: int(p * opacity))`
followed by `image.putalpha(alpha)`: RGB kept, alpha scaled and
truncated. -/
def opacityPix (image : Image) (opacity : ℚ) : ℕ → ℕ → Pixel := fun x y =>
  let p := image.pix x y
  Pixel.mk p.r p.g p.b (pyInt ((p.a : ℚ) * opacity)).toNat

/-- `ImageCompositor.apply_opacity` (image_utils.py:70).  Python mutates
`image` in place through `putalpha` and returns the same object; the
embedding returns the pair (state of the argument object after the call,
returned image). -/
def apply_opacity (image : Image) (opacity : ℚ) : Image × Image :=
  if 1 ≤ opacity then (image, image)
  else
    let m := Image.mk image.mode image.w image.h (opacityPix image opacity)
    (m, m)

/-- Position computation and paste of `ImageCompositor.composite_images`
(image_utils.py:121-139): copy the base, take `int(x)`/`int(y)` or the
centred offsets, and paste with the overlay as its own mask when it is
RGBA. -/
def pasteStep (base ov : Image) (x y width height : ℚ) (center : Bool) : Image :=
  let px := if center then pyInt (x + (width - (ov.w : ℚ)) / 2) else pyInt x
  let py := if center then pyInt (y + (height - (ov.h : ℚ)) / 2) else pyInt y
  if ov.mode = PMode.RGBA then pilPasteMask base ov px py else pilPasteCopy base ov px py

/-- `ImageCompositor.composite_images` (image_utils.py:82): resize with
aspect kept, rotate when the angle is nonzero, scale opacity when below
one, then paste onto a copy of the base. -/
def composite_images (res : Resampler) (rot : RotateKernel)
    (base_image overlay_image : Image) (x y width height : ℚ)
    (rotation opacity : ℚ) (center : Bool) : Except PyErr Image :=
  match resize_image res overlay_image width height true with
  | Except.error e => Except.error e
  | Except.ok r0 =>
    let r1 := if rotation ≠ 0 then rotate_image rot r0 rotation else r0
    let r2 := if opacity < 1 then (apply_opacity r1 opacity).2 else r1
    Except.ok (pasteStep base_image r2 x y width height center)

/-- `FastImageCompositor.resize_image_fast` (image_utils_fast.py:42):
identical geometry to `resize_image`; BILINEAR is used only when the
aspect ratio is not maintained, LANCZOS otherwise. -/
def resize_image_fast (bil lan : Resampler) (image : Image) (width height : ℚ)
    (maintain_aspect : Bool) : Except PyErr Image :=
  if maintain_aspect = false then
    pilResize bil image (pyInt width) (pyInt height)
  else if image.h = 0 then Except.error PyErr.zeroDivisionErr
  else if height = 0 then Except.error PyErr.zeroDivisionErr
  else
    let imgAspect : ℚ := (image.w : ℚ) / (image.h : ℚ)
    let targetAspect : ℚ := width / height
    if imgAspect > targetAspect then
      if imgAspect = 0 then Except.error PyErr.zeroDivisionErr
      else pilResize lan image (pyInt width) (pyInt (width / imgAspect))
    else
      pilResize lan image (pyInt (height * imgAspect)) (pyInt height)

/-- Position computation and paste of `FastImageCompositor.composite_fast`
(image_utils_fast.py:100-118), duplicated from the sequential path. -/
def pasteStepFast (base ov : Image) (x y width height : ℚ) (center : Bool) : Image :=
  let px := if center then pyInt (x + (width - (ov.w : ℚ)) / 2) else pyInt x
  let py := if center then pyInt (y + (height - (ov.h : ℚ)) / 2) else pyInt y
  if ov.mode = PMode.RGBA then pilPasteMask base ov px py else pilPasteCopy base ov px py

/-- `FastImageCompositor.composite_fast` (image_utils_fast.py:66): the
thread-pooled unit transform; rotation uses an expanding BILINEAR kernel
without an inner zero guard, opacity is scaled inline on the freshly
resized overlay. -/
def composite_fast (bil lan : Resampler) (rotB : RotateKernel)
    (base_image overlay_image : Image) (x y width height : ℚ)
    (rotation opacity : ℚ) (center : Bool) : Except PyErr Image :=
  match resize_image_fast bil lan overlay_image width height true with
  | Except.error e => Except.error e
  | Except.ok r0 =>
    let r1 := if rotation ≠ 0 then rotB r0 rotation else r0
    let r2 := if opacity < 1 then Image.mk r1.mode r1.w r1.h (opacityPix r1 opacity) else r1
    Except.ok (pasteStepFast base_image r2 x y width height center)

/-- Output format requested from the encoder (the source branches on the
upper-cased format string). -/
inductive Fmt
  | png
  | jpeg
  | jpg
  | webp
  deriving DecidableEq

/-- An encoded byte stream, tracked with the raster it serialises. -/
inductive Encoded
  | pngBytes (img : Image)
  | jpegBytes (quality : ℕ) (img : Image)
  | otherBytes (img : Image)

/-- Whether Pillow's JPEG encoder accepts the mode: an RGBA image is
rejected with OSError (cannot write mode RGBA as JPEG). -/
def jpegSupported : PMode → Bool
  | PMode.RGBA => false
  | PMode.RGB => true
  | PMode.L => true

/-- `FastImageCompositor.image_to_bytes_fast` (image_utils_fast.py:121):
PNG with fixed compress level, JPEG with quality 90, or a plain save. -/
def image_to_bytes_fast (image : Image) (format : Fmt) : Except PyErr Encoded :=
  match format with
  | Fmt.png => Except.ok (Encoded.pngBytes image)
  | Fmt.jpeg =>
    if jpegSupported image.mode then Except.ok (Encoded.jpegBytes 90 image)
    else Except.error PyErr.osErr
  | Fmt.jpg =>
    if jpegSupported image.mode then Except.ok (Encoded.jpegBytes 90 image)
    else Except.error PyErr.osErr
  | Fmt.webp => Except.ok (Encoded.otherBytes image)

/-- `ImageCompositor.image_to_bytes` (image_utils.py:188): the same save
call wrapped in a try/except that re-raises one generic exception. -/
def image_to_bytes (image : Image) (format : Fmt) : Except PyErr Encoded :=
  match format with
  | Fmt.png => Except.ok (Encoded.pngBytes image)
  | Fmt.jpeg =>
    if jpegSupported image.mode then Except.ok (Encoded.jpegBytes 75 image)
    else Except.error PyErr.osErr
  | Fmt.jpg =>
    if jpegSupported image.mode then Except.ok (Encoded.jpegBytes 75 image)
    else Except.error PyErr.osErr
  | Fmt.webp => Except.ok (Encoded.otherBytes image)

/-- A design-area record as passed by the batch callers. -/
structure DArea where
  x : ℚ
  y : ℚ
  width : ℚ
  height : ℚ
  rotation : ℚ
  opacity : ℚ

/-- One unit of `composite_batch` (`composite_single` inside
image_utils_fast.py:172): composite, then PNG-encode. -/
def composite_single (bil lan : Resampler) (rotB : RotateKernel)
    (mockup design : Image) (area : DArea) (center : Bool) : Except PyErr Encoded :=
  match composite_fast bil lan rotB mockup design area.x area.y area.width
      area.height area.rotation area.opacity center with
  | Except.error e => Except.error e
  | Except.ok img => image_to_bytes_fast img Fmt.png

/-- Collecting the results of `executor.map`: iterating the iterator
re-raises the first failed task's exception, discarding the siblings. -/
def seqE {α : Type} : List (Except PyErr α) → Except PyErr (List α)
  | [] => Except.ok []
  | x :: xs =>
    match x with
    | Except.error e => Except.error e
    | Except.ok v =>
      match seqE xs with
      | Except.error e => Except.error e
      | Except.ok vs => Except.ok (v :: vs)

/-- `FastImageCompositor.composite_batch` (image_utils_fast.py:144).
The fetch outcomes are supplied as data: the design is fetched once, the
mockups in parallel, and the units run under `executor.map`, whose
result list propagates the first unit failure. -/
def composite_batch (bil lan : Resampler) (rotB : RotateKernel)
    (mockups : List (Except PyErr Image)) (design : Except PyErr Image)
    (areas : List DArea) (center : Bool) : Except PyErr (List Encoded) :=
  match design with
  | Except.error e => Except.error e
  | Except.ok d =>
    match seqE mockups with
    | Except.error e => Except.error e
    | Except.ok ms =>
      seqE ((ms.zip areas).map (fun p => composite_single bil lan rotB p.1 d p.2 center))

/-- One variant unit of app.py's /api/composite loop (app.py:224-233):
`composite_image` fetches the mockup, fetches the design, composites and
PNG-encodes (the S3 upload is modelled as succeeding). -/
def appUnit (res : Resampler) (rot : RotateKernel)
    (mockup design : Except PyErr Image) (area : DArea) (center : Bool) :
    Except PyErr Encoded :=
  match mockup with
  | Except.error e => Except.error e
  | Except.ok m =>
    match design with
    | Except.error e => Except.error e
    | Except.ok d =>
      match composite_images res rot m d area.x area.y area.width area.height
          area.rotation area.opacity center with
      | Except.error e => Except.error e
      | Except.ok img => image_to_bytes img Fmt.png

/-- The per-variant try/except of app.py:221-249 for one source: each
unit is attempted, and a success or failure flag is appended in input
order (position in the list = the unit's original index). -/
def appVariantLoop (res : Resampler) (rot : RotateKernel)
    (design : Except PyErr Image) (units : List (Except PyErr Image × DArea))
    (center : Bool) : List Bool :=
  units.map (fun u =>
    match appUnit res rot u.1 design u.2 center with
    | Except.ok _ => true
    | Except.error _ => false)

/-- app.py:255: `len([r for r in results if r.success])`. -/
def successCount (rs : List Bool) : ℕ := (rs.filter (fun b => b)).length

/-- A decoded payload before mode normalisation: per-channel planes, the
alpha plane present only when the source format carries transparency. -/
structure Decoded where
  w : ℕ
  h : ℕ
  red : ℕ → ℕ → ℕ
  green : ℕ → ℕ → ℕ
  blue : ℕ → ℕ → ℕ
  alpha : Option (ℕ → ℕ → ℕ)

/-- Outcome of `requests.get(url, timeout=30)` followed by decoding:
a decodable or undecodable 2xx payload, a non-2xx status
(`raise_for_status`), a connection failure, or a timeout. -/
inductive FetchOutcome
  | payload (d : Option Decoded)
  | httpErrorStatus
  | connectionFailure
  | timedOut

/-- `img.convert('RGBA')`: normalise any decoded image to RGBA8; an
opaque source gets alpha 255 everywhere. -/
def convertRGBA (d : Decoded) : Image :=
  Image.mk PMode.RGBA d.w d.h (fun x y =>
    Pixel.mk (d.red x y) (d.green x y) (d.blue x y)
      (match d.alpha with
       | some f => f x y
       | none => 255))

/-- `load_image_from_url` (image_utils.py:10, image_utils_fast.py:25,
image_utils_gpu.py:42): convert the decoded payload to RGBA, and wrap
every failure of the fetch/decode block into the one load exception. -/
def load_image_from_url (o : FetchOutcome) : Except PyErr Image :=
  match o with
  | FetchOutcome.payload (some d) => Except.ok (convertRGBA d)
  | FetchOutcome.payload none => Except.error (PyErr.loadErr LoadReason.decode)
  | FetchOutcome.httpErrorStatus => Except.error (PyErr.loadErr LoadReason.httpStatus)
  | FetchOutcome.connectionFailure => Except.error (PyErr.loadErr LoadReason.network)
  | FetchOutcome.timedOut => Except.error (PyErr.loadErr LoadReason.timeout)

/-- One pixel of a float tensor in CHW layout, channels normalised to
the unit interval. -/
structure QPixel where
  r : ℚ
  g : ℚ
  b : ℚ
  a : ℚ
  deriving DecidableEq

/-- A float image tensor (exact rational idealisation of float32). -/
structure QImage where
  w : ℕ
  h : ℕ
  pix : ℕ → ℕ → QPixel

/-- A tensor resampling kernel (`TF.resize` with antialias). -/
abbrev QResampler := QImage → ℕ → ℕ → ℕ → ℕ → QPixel

/-- An expanding tensor rotation kernel (`TF.rotate` with expand). -/
abbrev QRotateKernel := QImage → ℚ → QImage

/-- `GPUImageCompositor.pil_to_tensor` (image_utils_gpu.py:52): scale
each byte to the unit interval. -/
def pil_to_tensor (img : Image) : QImage :=
  QImage.mk img.w img.h (fun x y =>
    let p := img.pix x y
    QPixel.mk ((p.r : ℚ) / 255) ((p.g : ℚ) / 255) ((p.b : ℚ) / 255) ((p.a : ℚ) / 255))

/-- `GPUImageCompositor.tensor_to_pil` (image_utils_gpu.py:62):
`(tensor * 255).byte()` truncates toward zero, and the result is built
with mode RGBA. -/
def tensor_to_pil (t : QImage) : Image :=
  Image.mk PMode.RGBA t.w t.h (fun x y =>
    let p := t.pix x y
    Pixel.mk (pyInt (p.r * 255)).toNat (pyInt (p.g * 255)).toNat
      (pyInt (p.b * 255)).toNat (pyInt (p.a * 255)).toNat)

/-- `torch.tensor` resize call: torch rejects a negative size; otherwise
the kernel fills a tensor of the requested size. -/
def tfResize (res : QResampler) (t : QImage) (w h : ℤ) : Except PyErr QImage :=
  if w < 0 ∨ h < 0 then Except.error PyErr.valueErr
  else Except.ok (QImage.mk w.toNat h.toNat (res t w.toNat h.toNat))

/-- `GPUImageCompositor.resize_tensor` (image_utils_gpu.py:72) on the
maintain-aspect path used by `composite_gpu`: same truncating geometry
as the PIL paths, with the already-integer target width/height kept as
is on the exactly-fitting axis. -/
def resize_tensor (res : QResampler) (t : QImage) (width height : ℤ) :
    Except PyErr QImage :=
  if t.h = 0 then Except.error PyErr.zeroDivisionErr
  else if height = 0 then Except.error PyErr.zeroDivisionErr
  else
    let imgAspect : ℚ := (t.w : ℚ) / (t.h : ℚ)
    let targetAspect : ℚ := (width : ℚ) / (height : ℚ)
    if imgAspect > targetAspect then
      if imgAspect = 0 then Except.error PyErr.zeroDivisionErr
      else tfResize res t width (pyInt ((width : ℚ) / imgAspect))
    else
      tfResize res t (pyInt ((height : ℚ) * imgAspect)) height

/-- `GPUImageCompositor.rotate_tensor` (image_utils_gpu.py:109). -/
def rotate_tensor (rot : QRotateKernel) (t : QImage) (angle : ℚ) : QImage :=
  if angle = 0 then t else rot t angle

/-- `GPUImageCompositor.apply_opacity_tensor` (image_utils_gpu.py:115):
`tensor[3,:,:] *= opacity` mutates the tensor in place and returns it;
the embedding returns (post-call state of the argument, returned
tensor). -/
def apply_opacity_tensor (t : QImage) (opacity : ℚ) : QImage × QImage :=
  if 1 ≤ opacity then (t, t)
  else
    let m := QImage.mk t.w t.h (fun x y =>
      let p := t.pix x y
      QPixel.mk p.r p.g p.b (p.a * opacity))
    (m, m)

/-- The offset clamping of image_utils_gpu.py:176-177:
`max(0, min(p, base - overlay))`. -/
def clampOffset (p : ℤ) (bw ow : ℕ) : ℤ := max 0 (min p ((bw : ℤ) - (ow : ℤ)))

/-- The explicit source-over blend of `composite_gpu` (lines 179-190):
RGB is `overlay*a + base*(1-a)`; the alpha channel is the pointwise
maximum. -/
def gpuBlendPixel (bp o : QPixel) : QPixel :=
  QPixel.mk (o.r * o.a + bp.r * (1 - o.a)) (o.g * o.a + bp.g * (1 - o.a))
    (o.b * o.a + bp.b * (1 - o.a)) (max bp.a o.a)

/-- The paste-and-blend tail of `composite_gpu` (image_utils_gpu.py:
162-192): the offsets are clamped into the base bounds, and the blend is
written over a full overlay-sized slice, so an overlay larger than the
base makes the slice shapes mismatch and torch raise. -/
def gpuPasteBlend (base ov : QImage) (px py : ℤ) : Except PyErr QImage :=
  if base.w < ov.w ∨ base.h < ov.h then Except.error PyErr.runtimeErr
  else
    let cx := clampOffset px base.w ov.w
    let cy := clampOffset py base.h ov.h
    Except.ok (QImage.mk base.w base.h (fun X Y =>
      if cx ≤ (X : ℤ) ∧ (X : ℤ) < cx + (ov.w : ℤ) ∧
          cy ≤ (Y : ℤ) ∧ (Y : ℤ) < cy + (ov.h : ℤ) then
        gpuBlendPixel (base.pix X Y)
          (ov.pix ((X : ℤ) - cx).toNat ((Y : ℤ) - cy).toNat)
      else base.pix X Y))

/-- `GPUImageCompositor.composite_gpu` (image_utils_gpu.py:124). -/
def composite_gpu (qres : QResampler) (qrot : QRotateKernel)
    (base_tensor overlay_tensor : QImage) (x y width height : ℤ)
    (rotation opacity : ℚ) (center : Bool) : Except PyErr QImage :=
  match resize_tensor qres overlay_tensor width height with
  | Except.error e => Except.error e
  | Except.ok r0 =>
    let r1 := if rotation ≠ 0 then rotate_tensor qrot r0 rotation else r0
    let r2 := if opacity < 1 then (apply_opacity_tensor r1 opacity).2 else r1
    let px := if center then pyInt ((x : ℚ) + ((width : ℚ) - (r2.w : ℚ)) / 2) else x
    let py := if center then pyInt ((y : ℚ) + ((height : ℚ) - (r2.h : ℚ)) / 2) else y
    gpuPasteBlend base_tensor r2 px py

/-- The fitted-dimension formula shared verbatim by `resize_image`,
`resize_image_fast` and `resize_tensor` on their maintain-aspect path:
compare the aspect ratios and truncate the fitted axis with `int()`. -/
def resizeDims (ow oh : ℕ) (width height : ℚ) : ℤ × ℤ :=
  let imgAspect : ℚ := (ow : ℚ) / (oh : ℚ)
  let targetAspect : ℚ := width / height
  if imgAspect > targetAspect then (pyInt width, pyInt (width / imgAspect))
  else (pyInt (height * imgAspect), pyInt height)

/-- Modelled from the spec: `scale = min(w/ow, h/oh)`. -/
def rScale (ow oh : ℕ) (width height : ℚ) : ℚ :=
  min (width / (ow : ℚ)) (height / (oh : ℚ))

/-- Modelled from the spec: `newW = round(ow*scale)`,
`newH = round(oh*scale)` for the resize target, with round-half-up. -/
def specResizeDims (ow oh : ℕ) (width height : ℚ) : ℤ × ℤ :=
  (ratRound ((ow : ℚ) * rScale ow oh width height),
   ratRound ((oh : ℚ) * rScale ow oh width height))

/-- A concrete resampling kernel used to instantiate witnesses. -/
def cRes : Resampler := fun _ _ _ _ _ => Pixel.mk 0 0 0 0

/-- A concrete tensor resampling kernel used to instantiate witnesses. -/
def cQRes : QResampler := fun _ _ _ _ _ => QPixel.mk 0 0 0 0

/-- A concrete rotation kernel used to instantiate witnesses. -/
def cRotK : RotateKernel := fun img _ => img

/-- A concrete 1x1 fully transparent RGBA raster. -/
def cImg : Image := Image.mk PMode.RGBA 1 1 (fun _ _ => Pixel.mk 0 0 0 0)

/-- A concrete 3x2 raster (overlay for the resize counterexample). -/
def img3x2 : Image := Image.mk PMode.RGBA 3 2 (fun _ _ => Pixel.mk 0 0 0 0)

/-- A concrete 1x1 opaque raster (input of the mutation counterexample). -/
def imgA255 : Image := Image.mk PMode.RGBA 1 1 (fun _ _ => Pixel.mk 10 20 30 255)

/-- A concrete 1x1 half-transparent white overlay. -/
def ov1 : Image := Image.mk PMode.RGBA 1 1 (fun _ _ => Pixel.mk 255 255 255 128)

/-- A concrete 4x1 fully transparent base raster. -/
def base4 : Image := Image.mk PMode.RGBA 4 1 (fun _ _ => Pixel.mk 0 0 0 0)

/-- A concrete 2x1 opaque white overlay. -/
def ov2 : Image := Image.mk PMode.RGBA 2 1 (fun _ _ => Pixel.mk 255 255 255 255)

/-- A concrete unit design area. -/
def area1 : DArea := DArea.mk 0 0 1 1 0 1

/-- The composite produced by `composite_fast` on `cImg` over itself in
a unit design area (used by witnesses). -/
def cOut : Image :=
  pasteStepFast cImg (Image.mk PMode.RGBA 1 1 (cRes cImg 1 1)) 0 0 1 1 false

/-- A concrete opaque decoded payload without an alpha plane. -/
def d0 : Decoded :=
  Decoded.mk 1 1 (fun _ _ => 5) (fun _ _ => 6) (fun _ _ => 7) none

/-- Whether a Python call completed without raising. -/
def eOk {α : Type} : Except PyErr α → Bool
  | Except.ok _ => true
  | Except.error _ => false

end Ldz

namespace Ldz

theorem pyInt_of_nonneg {q : ℚ} (h : 0 ≤ q) : pyInt q = ⌊q⌋ := by
  simp [pyInt, h]

theorem pyInt_natCast (n : ℕ) : pyInt (n : ℚ) = n := by
  rw [pyInt_of_nonneg (by positivity)]
  exact Int.floor_natCast n

theorem pyInt_nonneg {q : ℚ} (h : 0 ≤ q) : 0 ≤ pyInt q := by
  rw [pyInt_of_nonneg h]
  exact Int.floor_nonneg.mpr h

/-- C7: with rotation 0 the rotation step is the identity and the
transform-pipeline output of `composite_images` is exactly the paste of
the resized (and, when opacity < 1, opacity-adjusted) overlay: same
dimensions, same pixel content. -/
theorem c7_rotation_identity (res : Resampler) (rot : RotateKernel)
    (base ov : Image) (x y width height opacity : ℚ) (center : Bool) :
    rotate_image rot ov 0 = ov ∧
    composite_images res rot base ov x y width height 0 opacity center =
      (match resize_image res ov width height true with
       | Except.error e => Except.error e
       | Except.ok r0 =>
         Except.ok (pasteStep base
           (if opacity < 1 then (apply_opacity r0 opacity).2 else r0)
           x y width height center)) := by
  refine ⟨by simp [rotate_image], ?_⟩
  rw [composite_images]
  cases hr : resize_image res ov width height true with
  | error e => rfl
  | ok r0 => simp

/-- C6: compositing with opacity 1.0 equals compositing with the
parameter omitted (the Python default is 1.0, hence the right-hand call
with opacity 1), and for any opacity at least 1 the opacity-scaling step
is skipped entirely, both in `composite_images` and as the no-op return
of `apply_opacity` / `apply_opacity_tensor`. -/
theorem c6_opacity_noop (res : Resampler) (rot : RotateKernel)
    (base ov : Image) (x y width height rotation : ℚ) (center : Bool)
    (opacity : ℚ) (hop : 1 ≤ opacity) :
    composite_images res rot base ov x y width height rotation opacity center =
      composite_images res rot base ov x y width height rotation 1 center ∧
    apply_opacity ov opacity = (ov, ov) ∧
    apply_opacity_tensor (pil_to_tensor ov) opacity =
      (pil_to_tensor ov, pil_to_tensor ov) := by
  have h1 : ¬ opacity < 1 := not_lt.mpr hop
  refine ⟨?_, ?_, ?_⟩
  · rw [composite_images, composite_images]
    cases hr : resize_image res ov width height true with
    | error e => rfl
    | ok r0 => simp [h1]
  · simp [apply_opacity, hop]
  · simp [apply_opacity_tensor, hop]

theorem c6_opacity_noop_witness :
    composite_images cRes cRotK cImg cImg 0 0 1 1 0 2 false =
      composite_images cRes cRotK cImg cImg 0 0 1 1 0 1 false ∧
    apply_opacity cImg 2 = (cImg, cImg) ∧
    apply_opacity_tensor (pil_to_tensor cImg) 2 =
      (pil_to_tensor cImg, pil_to_tensor cImg) :=
  c6_opacity_noop cRes cRotK cImg cImg 0 0 1 1 0 false 2 (by norm_num)

/-- C9: a successful fetch always yields an RGBA raster (a decodable 2xx
payload is converted with alpha 255 everywhere when the source is
opaque), and every fetch outcome either succeeds or fails with the load
wrapper error (spec: LoadError) -- never any other kind of error. -/
theorem c9_fetch_rgba (o : FetchOutcome) :
    (∀ img, load_image_from_url o = Except.ok img → img.mode = PMode.RGBA) ∧
    (∀ d, o = FetchOutcome.payload (some d) →
      load_image_from_url o = Except.ok (convertRGBA d) ∧
      (d.alpha = none → ∀ x y, ((convertRGBA d).pix x y).a = 255)) ∧
    ((∃ img, load_image_from_url o = Except.ok img) ∨
      (∃ rr, load_image_from_url o = Except.error (PyErr.loadErr rr))) := by
  refine ⟨?_, ?_, ?_⟩
  · intro img h
    cases o with
    | payload d =>
      cases d with
      | none => exact absurd h (by simp [load_image_from_url])
      | some d =>
        have : img = convertRGBA d := by
          simpa [load_image_from_url] using h.symm
        rw [this]; rfl
    | httpErrorStatus => exact absurd h (by simp [load_image_from_url])
    | connectionFailure => exact absurd h (by simp [load_image_from_url])
    | timedOut => exact absurd h (by simp [load_image_from_url])
  · intro d hd
    subst hd
    refine ⟨rfl, ?_⟩
    intro ha x y
    simp [convertRGBA, ha]
  · cases o with
    | payload d =>
      cases d with
      | none => exact Or.inr ⟨LoadReason.decode, rfl⟩
      | some d => exact Or.inl ⟨convertRGBA d, rfl⟩
    | httpErrorStatus => exact Or.inr ⟨LoadReason.httpStatus, rfl⟩
    | connectionFailure => exact Or.inr ⟨LoadReason.network, rfl⟩
    | timedOut => exact Or.inr ⟨LoadReason.timeout, rfl⟩

theorem c9_fetch_rgba_witness :
    (convertRGBA d0).mode = PMode.RGBA ∧ ((convertRGBA d0).pix 0 0).a = 255 :=
  ⟨(c9_fetch_rgba (FetchOutcome.payload (some d0))).1 (convertRGBA d0) rfl,
   ((c9_fetch_rgba (FetchOutcome.payload (some d0))).2.1 d0 rfl).2 rfl 0 0⟩

/-- C4 amended: resize and rotation return fresh rasters, but the
opacity step is not pure.  With opacity at least 1 both opacity
functions return their input unchanged; with opacity below 1 they write
the truncated scaled alpha into the input raster in place and return
exactly that mutated object (first component = post-call state of the
input, second = returned value). -/
theorem c4_mutation_amended (image : Image) (t : QImage) (opacity : ℚ) :
    (1 ≤ opacity → apply_opacity image opacity = (image, image) ∧
      apply_opacity_tensor t opacity = (t, t)) ∧
    (opacity < 1 →
      (apply_opacity image opacity).1 = (apply_opacity image opacity).2 ∧
      (apply_opacity image opacity).1 =
        Image.mk image.mode image.w image.h (opacityPix image opacity) ∧
      (apply_opacity_tensor t opacity).1 = (apply_opacity_tensor t opacity).2) := by
  constructor
  · intro hop
    exact ⟨by simp [apply_opacity, hop], by simp [apply_opacity_tensor, hop]⟩
  · intro hop
    have h1 : ¬ 1 ≤ opacity := not_le.mpr hop
    exact ⟨by simp [apply_opacity, h1], by simp [apply_opacity, h1],
      by simp [apply_opacity_tensor, h1]⟩

theorem c4_mutation_amended_witness :
    apply_opacity imgA255 2 = (imgA255, imgA255) ∧
    (apply_opacity imgA255 (1 / 2)).1 = (apply_opacity imgA255 (1 / 2)).2 :=
  ⟨((c4_mutation_amended imgA255 (pil_to_tensor imgA255) 2).1 (by norm_num)).1,
   ((c4_mutation_amended imgA255 (pil_to_tensor imgA255) (1 / 2)).2 (by norm_num)).1⟩

/-- C4 counterexample: `apply_opacity` at opacity one half leaves the
input object's alpha byte at 127, not the original 255 -- the input's
pixel buffer is mutated by the step. -/
theorem c4_mutation_cx :
    ((apply_opacity imgA255 (1 / 2)).1).pix 0 0 = Pixel.mk 10 20 30 127 ∧
    imgA255.pix 0 0 = Pixel.mk 10 20 30 255 ∧
    Pixel.mk 10 20 30 127 ≠ Pixel.mk 10 20 30 255 := by
  refine ⟨?_, rfl, by decide⟩
  have h1 : ¬ (1 : ℚ) ≤ 1 / 2 := by norm_num
  simp only [apply_opacity, h1, if_false, opacityPix, imgA255]
  rw [pyInt_of_nonneg (by norm_num)]
  norm_num
  decide

theorem seqE_ok_mem {α : Type} {xs : List (Except PyErr α)} {vs : List α}
    (h : seqE xs = Except.ok vs) : ∀ x ∈ xs, eOk x = true := by
  induction xs generalizing vs with
  | nil => intro x hx; cases hx
  | cons a as ih =>
    intro x hx
    cases a with
    | error e => simp [seqE] at h
    | ok v =>
      cases hs : seqE as with
      | error e => rw [seqE, hs] at h; cases h
      | ok ws =>
        cases hx with
        | head => rfl
        | tail _ hx => exact ih hs x hx

theorem composite_fast_cImg :
    composite_fast cRes cRes cRotK cImg cImg 0 0 1 1 0 1 false = Except.ok cOut := by
  rw [composite_fast]
  have hr : resize_image_fast cRes cRes cImg 1 1 true =
      Except.ok (Image.mk PMode.RGBA 1 1 (cRes cImg 1 1)) := by
    rw [resize_image_fast]
    rw [if_neg (by simp)]
    rw [if_neg (by decide)]
    rw [if_neg (by norm_num)]
    rw [if_neg (by norm_num [cImg])]
    rw [pilResize]
    rw [pyInt_of_nonneg (by norm_num [cImg]), pyInt_of_nonneg (by norm_num)]
    norm_num [cImg]
  rw [hr]
  simp [cOut]

theorem composite_single_cImg :
    composite_single cRes cRes cRotK cImg cImg area1 false =
      Except.ok (Encoded.pngBytes cOut) := by
  rw [composite_single]
  have ha : area1 = DArea.mk 0 0 1 1 0 1 := rfl
  rw [ha]
  rw [show composite_fast cRes cRes cRotK cImg cImg (DArea.mk 0 0 1 1 0 1).x
      (DArea.mk 0 0 1 1 0 1).y (DArea.mk 0 0 1 1 0 1).width
      (DArea.mk 0 0 1 1 0 1).height (DArea.mk 0 0 1 1 0 1).rotation
      (DArea.mk 0 0 1 1 0 1).opacity false =
      composite_fast cRes cRes cRotK cImg cImg 0 0 1 1 0 1 false from rfl]
  rw [composite_fast_cImg]
  rfl

theorem cBatchRun :
    composite_batch cRes cRes cRotK [Except.ok cImg] (Except.ok cImg) [area1] false =
      Except.ok [Encoded.pngBytes cOut] := by
  rw [composite_batch]
  show (match seqE [Except.ok cImg] with
    | Except.error e => Except.error e
    | Except.ok ms =>
      seqE ((ms.zip [area1]).map
        (fun p => composite_single cRes cRes cRotK p.1 cImg p.2 false))) =
    Except.ok [Encoded.pngBytes cOut]
  rw [show seqE [Except.ok cImg] = Except.ok [cImg] from rfl]
  show seqE [composite_single cRes cRes cRotK cImg cImg area1 false] =
    Except.ok [Encoded.pngBytes cOut]
  rw [composite_single_cImg]
  rfl

/-- C2 amended: the sequential endpoint loop of app.py does isolate unit
failures -- it returns one flag per unit in input order, a unit's flag
is exactly whether that unit's pipeline succeeded, and the reported
success count is the number of succeeded units -- but the thread-pooled
`composite_batch` does not: it can only return a full result list when
every mockup fetch succeeded, since `executor.map` re-raises the first
unit failure and aborts the whole batch call. -/
theorem c2_batch_amended (res : Resampler) (rot : RotateKernel)
    (design : Except PyErr Image) (units : List (Except PyErr Image × DArea))
    (center : Bool) :
    (appVariantLoop res rot design units center).length = units.length ∧
    (∀ i (hi : i < units.length)
        (hj : i < (appVariantLoop res rot design units center).length),
      (appVariantLoop res rot design units center).get ⟨i, hj⟩ =
        eOk (appUnit res rot (units.get ⟨i, hi⟩).1 design (units.get ⟨i, hi⟩).2 center)) ∧
    successCount (appVariantLoop res rot design units center) =
      units.countP (fun u => eOk (appUnit res rot u.1 design u.2 center)) ∧
    (∀ (bil lan : Resampler) (rotB : RotateKernel)
        (mockups : List (Except PyErr Image)) (areas : List DArea)
        (rs : List Encoded),
      composite_batch bil lan rotB mockups design areas center = Except.ok rs →
      ∀ m ∈ mockups, eOk m = true) := by
  refine ⟨by simp [appVariantLoop], ?_, ?_, ?_⟩
  · intro i hi hj
    simp only [appVariantLoop, List.get_eq_getElem, List.getElem_map]
    cases appUnit res rot (units.get ⟨i, hi⟩).1 design (units.get ⟨i, hi⟩).2 center <;> rfl
  · have hb : ∀ u : Except PyErr Image × DArea,
        (match appUnit res rot u.1 design u.2 center with
         | Except.ok _ => true
         | Except.error _ => false) = eOk (appUnit res rot u.1 design u.2 center) := by
      intro u; cases appUnit res rot u.1 design u.2 center <;> rfl
    have hfl : ∀ (g : Except PyErr Image × DArea → Bool)
        (l : List (Except PyErr Image × DArea)),
        (List.filter (fun b => b) (l.map g)).length = l.countP g := by
      intro g l
      induction l with
      | nil => rfl
      | cons a as ih =>
        simp only [List.map_cons, List.countP_cons]
        cases hg : g a
        · simp [List.filter, hg, ih]
        · simp [List.filter, hg, ih]
    simp only [appVariantLoop, successCount, hb]
    exact hfl _ units
  · intro bil lan rotB mockups areas rs h m hm
    rw [composite_batch.eq_def] at h
    cases design with
    | error e => cases h
    | ok d =>
      cases hs : seqE mockups with
      | error e => rw [hs] at h; cases h
      | ok ms => exact seqE_ok_mem hs m hm

/-- C2 counterexample: a two-unit batch whose first mockup fetch fails
makes `composite_batch` raise instead of returning two per-unit results;
the healthy sibling unit is lost with it. -/
theorem c2_batch_cx :
    composite_batch cRes cRes cRotK
      [Except.error (PyErr.loadErr LoadReason.network), Except.ok cImg]
      (Except.ok cImg) [area1, area1] false =
      Except.error (PyErr.loadErr LoadReason.network) := rfl

theorem pilPasteMask_empty (base ov : Image) (px py : ℤ) (h : ov.w = 0) :
    pilPasteMask base ov px py = base := by
  rw [pilPasteMask]
  have hp : (fun X Y =>
      if X < base.w ∧ Y < base.h ∧
          px ≤ (X : ℤ) ∧ (X : ℤ) < px + (ov.w : ℤ) ∧
          py ≤ (Y : ℤ) ∧ (Y : ℤ) < py + (ov.h : ℤ) then
        pilBlendPixel (base.pix X Y)
          (ov.pix ((X : ℤ) - px).toNat ((Y : ℤ) - py).toNat)
      else base.pix X Y) = base.pix := by
    funext X Y
    rw [if_neg]
    rintro ⟨-, -, h1, h2, -, -⟩
    rw [h] at h2
    omega
  rw [hp]

theorem pilPasteCopy_empty (base ov : Image) (px py : ℤ) (h : ov.w = 0) :
    pilPasteCopy base ov px py = base := by
  rw [pilPasteCopy]
  have hp : (fun X Y =>
      if X < base.w ∧ Y < base.h ∧
          px ≤ (X : ℤ) ∧ (X : ℤ) < px + (ov.w : ℤ) ∧
          py ≤ (Y : ℤ) ∧ (Y : ℤ) < py + (ov.h : ℤ) then
        ov.pix ((X : ℤ) - px).toNat ((Y : ℤ) - py).toNat
      else base.pix X Y) = base.pix := by
    funext X Y
    rw [if_neg]
    rintro ⟨-, -, h1, h2, -, -⟩
    rw [h] at h2
    omega
  rw [hp]

theorem pasteStep_empty (base ov : Image) (x y w h : ℚ) (c : Bool)
    (hw : ov.w = 0) : pasteStep base ov x y w h c = base := by
  rw [pasteStep]
  by_cases hm : ov.mode = PMode.RGBA
  · simp only [hm, if_true]
    exact pilPasteMask_empty base ov _ _ hw
  · simp only [hm, if_false]
    exact pilPasteCopy_empty base ov _ _ hw

theorem composite_zero_width (res : Resampler) (rot : RotateKernel)
    (base ov : Image) (x y height opacity : ℚ) (center : Bool)
    (hh : 0 < height) (how : 0 < ov.w) (hoh : 0 < ov.h) :
    composite_images res rot base ov x y 0 height 0 opacity center =
      Except.ok base := by
  have hA : (0 : ℚ) < (ov.w : ℚ) / (ov.h : ℚ) := by
    apply div_pos <;> exact_mod_cast by assumption
  have hr : resize_image res ov 0 height true =
      Except.ok (Image.mk ov.mode 0 0 (res ov 0 0)) := by
    rw [resize_image]
    rw [if_neg (by simp)]
    rw [if_neg (Nat.pos_iff_ne_zero.mp hoh)]
    rw [if_neg hh.ne']
    rw [if_pos (by rw [zero_div]; exact hA)]
    rw [if_neg hA.ne']
    rw [zero_div, pyInt_of_nonneg le_rfl, Int.floor_zero, pilResize]
    norm_num
  rw [composite_images, hr]
  simp only [ne_eq, not_true_eq_false, if_false, ite_self]
  rw [Except.ok.injEq]
  by_cases hop : opacity < 1
  · simp only [hop, if_true]
    refine pasteStep_empty _ _ _ _ _ _ _ ?_
    rw [apply_opacity]
    split <;> rfl
  · simp only [hop, if_false]
    exact pasteStep_empty _ _ _ _ _ _ _ rfl

/-- C5 amended: the code performs no design-area validation and no
GeometryError exists.  A zero height raises ZeroDivisionError inside the
aspect computation; a width of -1 or less raises PIL's ValueError from a
negative resize target; and a zero width with positive height raises
nothing at all -- the composite succeeds and returns the base unchanged
under an empty overlay. -/
theorem c5_geometry_amended (res : Resampler) (rot : RotateKernel)
    (base ov : Image) (x y width height rotation opacity : ℚ) (center : Bool) :
    (0 < ov.h →
      composite_images res rot base ov x y width 0 rotation opacity center =
        Except.error PyErr.zeroDivisionErr) ∧
    (width ≤ -1 → 0 < height → 0 < ov.w → 0 < ov.h →
      composite_images res rot base ov x y width height rotation opacity center =
        Except.error PyErr.valueErr) ∧
    (0 < height → 0 < ov.w → 0 < ov.h →
      composite_images res rot base ov x y 0 height 0 opacity center =
        Except.ok base) := by
  refine ⟨?_, ?_, fun hh how hoh => composite_zero_width res rot base ov x y
    height opacity center hh how hoh⟩
  · intro hoh
    rw [composite_images, resize_image]
    rw [if_neg (by simp)]
    rw [if_neg (Nat.pos_iff_ne_zero.mp hoh)]
    rw [if_pos rfl]
  · intro hwneg hh how hoh
    have hA : (0 : ℚ) < (ov.w : ℚ) / (ov.h : ℚ) := by
      apply div_pos <;> exact_mod_cast by assumption
    have hT : width / height < 0 :=
      div_neg_of_neg_of_pos (by linarith) hh
    rw [composite_images, resize_image]
    rw [if_neg (by simp)]
    rw [if_neg (Nat.pos_iff_ne_zero.mp hoh)]
    rw [if_neg hh.ne']
    rw [if_pos (lt_trans hT hA)]
    rw [if_neg hA.ne']
    rw [pilResize, if_pos]
    left
    have : ¬ (0 : ℚ) ≤ width := by linarith
    rw [pyInt, if_neg this]
    have : (⌈width⌉ : ℤ) ≤ ⌈(-1 : ℚ)⌉ := Int.ceil_le_ceil hwneg
    have h1 : (⌈(-1 : ℚ)⌉ : ℤ) = -1 := by
      rw [show (-1 : ℚ) = ((-1 : ℤ) : ℚ) by norm_num, Int.ceil_intCast]
    omega

/-- C5 counterexample: a design area with width 0 and height 5 does not
fail at all -- the single-item composite succeeds and returns the base
image unchanged, contradicting the claimed GeometryError. -/
theorem c5_geometry_cx :
    composite_images cRes cRotK cImg cImg 0 0 0 5 0 1 false = Except.ok cImg :=
  composite_zero_width cRes cRotK cImg cImg 0 0 5 1 false (by norm_num)
    (by decide) (by decide)

theorem c5_geometry_witness :
    composite_images cRes cRotK cImg cImg 0 0 5 0 0 1 false =
      Except.error PyErr.zeroDivisionErr ∧
    composite_images cRes cRotK cImg cImg 0 0 (-3) 5 0 1 false =
      Except.error PyErr.valueErr ∧
    composite_images cRes cRotK cImg cImg 0 0 0 7 0 1 false = Except.ok cImg :=
  ⟨(c5_geometry_amended cRes cRotK cImg cImg 0 0 5 9 0 1 false).1 (by decide),
   (c5_geometry_amended cRes cRotK cImg cImg 0 0 (-3) 5 0 1 false).2.1
     (by norm_num) (by norm_num) (by decide) (by decide),
   (c5_geometry_amended cRes cRotK cImg cImg 0 0 9 7 0 1 false).2.2
     (by norm_num) (by decide) (by decide)⟩

theorem pilPasteMask_mode (base ov : Image) (px py : ℤ) :
    (pilPasteMask base ov px py).mode = base.mode := rfl

theorem pasteStepFast_mode (base ov : Image) (x y w h : ℚ) (c : Bool) :
    (pasteStepFast base ov x y w h c).mode = base.mode := by
  rw [pasteStepFast]
  by_cases hm : ov.mode = PMode.RGBA
  · simp only [hm, if_true]; rfl
  · simp only [hm, if_false]; rfl

theorem load_rgba (o : FetchOutcome) (img : Image)
    (h : load_image_from_url o = Except.ok img) : img.mode = PMode.RGBA := by
  cases o with
  | payload d =>
    cases d with
    | none => cases h
    | some d =>
      have : img = convertRGBA d := by
        simpa [load_image_from_url] using h.symm
      rw [this]; rfl
  | httpErrorStatus => cases h
  | connectionFailure => cases h
  | timedOut => cases h

/-- C10: every raster the pipeline produces is RGBA (fetch converts to
RGBA, the tensor path converts back with mode RGBA, and the composite
keeps the base's mode), and the JPEG branch of the encoder rejects an
RGBA image -- so JPEG encoding of a composited result always errors and
can never succeed. -/
theorem c10_jpeg_rgba (bil lan : Resampler) (rotB : RotateKernel)
    (base ov : Image) (x y width height rotation opacity : ℚ) (center : Bool)
    (out : Image) (hb : base.mode = PMode.RGBA)
    (h : composite_fast bil lan rotB base ov x y width height rotation opacity
      center = Except.ok out) :
    image_to_bytes_fast out Fmt.jpeg = Except.error PyErr.osErr ∧
    image_to_bytes_fast out Fmt.jpg = Except.error PyErr.osErr ∧
    (∀ t, (tensor_to_pil t).mode = PMode.RGBA) ∧
    (∀ o img, load_image_from_url o = Except.ok img → img.mode = PMode.RGBA) := by
  have hout : out.mode = PMode.RGBA := by
    rw [composite_fast] at h
    cases hr : resize_image_fast bil lan ov width height true with
    | error e => rw [hr] at h; cases h
    | ok r0 =>
      rw [hr] at h
      have : out = pasteStepFast base
          (if opacity < 1 then
            Image.mk (if rotation ≠ 0 then rotB r0 rotation else r0).mode
              (if rotation ≠ 0 then rotB r0 rotation else r0).w
              (if rotation ≠ 0 then rotB r0 rotation else r0).h
              (opacityPix (if rotation ≠ 0 then rotB r0 rotation else r0) opacity)
           else (if rotation ≠ 0 then rotB r0 rotation else r0))
          x y width height center := by
        exact (Except.ok.inj h).symm
      rw [this, pasteStepFast_mode, hb]
  refine ⟨?_, ?_, fun t => rfl, load_rgba⟩
  · rw [image_to_bytes_fast]
    simp [hout, jpegSupported]
  · rw [image_to_bytes_fast]
    simp [hout, jpegSupported]

theorem c10_jpeg_rgba_witness :
    image_to_bytes_fast cOut Fmt.jpeg = Except.error PyErr.osErr :=
  (c10_jpeg_rgba cRes cRes cRotK cImg cImg 0 0 1 1 0 1 false cOut rfl
    composite_fast_cImg).1

/-- C1 amended: the sequential and thread-pooled strategies share one
paste step and agree pixel-for-pixel; inside the overlap that step
blends every band, the alpha band included, with Pillow's masked-paste
rounding (`pilBlendPixel`), and outside the overlap the base pixel is
unchanged.  The tensor strategy instead writes the explicit source-over
RGB blend with max-alpha accumulation (`gpuBlendPixel`) over a region
whose offset has been clamped into the base bounds.  The two blend
formulas are not the same, so the strategies do not agree
pixel-for-pixel (see the counterexample). -/
theorem c1_blend_amended :
    (∀ (base ov : Image) (x y width height : ℚ) (center : Bool),
      pasteStep base ov x y width height center =
        pasteStepFast base ov x y width height center) ∧
    (∀ (base ov : Image) (px py : ℤ) (X Y : ℕ),
      ((X < base.w ∧ Y < base.h ∧ px ≤ (X : ℤ) ∧ (X : ℤ) < px + (ov.w : ℤ) ∧
          py ≤ (Y : ℤ) ∧ (Y : ℤ) < py + (ov.h : ℤ)) →
        (pilPasteMask base ov px py).pix X Y =
          pilBlendPixel (base.pix X Y)
            (ov.pix ((X : ℤ) - px).toNat ((Y : ℤ) - py).toNat)) ∧
      (¬(X < base.w ∧ Y < base.h ∧ px ≤ (X : ℤ) ∧ (X : ℤ) < px + (ov.w : ℤ) ∧
          py ≤ (Y : ℤ) ∧ (Y : ℤ) < py + (ov.h : ℤ)) →
        (pilPasteMask base ov px py).pix X Y = base.pix X Y)) ∧
    (∀ (base ov : QImage) (px py : ℤ), ov.w ≤ base.w → ov.h ≤ base.h →
      gpuPasteBlend base ov px py = Except.ok (QImage.mk base.w base.h
        (fun X Y =>
          if clampOffset px base.w ov.w ≤ (X : ℤ) ∧
              (X : ℤ) < clampOffset px base.w ov.w + (ov.w : ℤ) ∧
              clampOffset py base.h ov.h ≤ (Y : ℤ) ∧
              (Y : ℤ) < clampOffset py base.h ov.h + (ov.h : ℤ) then
            gpuBlendPixel (base.pix X Y)
              (ov.pix ((X : ℤ) - clampOffset px base.w ov.w).toNat
                ((Y : ℤ) - clampOffset py base.h ov.h).toNat)
          else base.pix X Y))) := by
  refine ⟨fun base ov x y width height center => rfl, ?_, ?_⟩
  · intro base ov px py X Y
    constructor
    · intro hc
      simp only [pilPasteMask]
      rw [if_pos hc]
    · intro hc
      simp only [pilPasteMask]
      rw [if_neg hc]
  · intro base ov px py hw hh
    rw [gpuPasteBlend, if_neg]
    simp only [not_or, not_lt]
    exact ⟨hw, hh⟩

/-- C1 counterexample: over a transparent base pixel and a
half-transparent white overlay pixel, the PIL strategies produce output
alpha 64 (the alpha band is mask-blended), while the claimed
authoritative formula `outA = max(baseA, a)` -- and the tensor strategy
that implements it -- produce 128.  The strategies disagree
pixel-for-pixel and the PIL paths do not satisfy the claimed formula. -/
theorem c1_blend_cx :
    ((pilPasteMask cImg ov1 0 0).pix 0 0).a = 64 ∧
    max ((cImg.pix 0 0).a) ((ov1.pix 0 0).a) = 128 ∧
    (gpuPasteBlend (pil_to_tensor cImg) (pil_to_tensor ov1) 0 0).map
      (fun t => ((tensor_to_pil t).pix 0 0).a) = Except.ok 128 ∧
    (64 : ℕ) ≠ 128 := by
  refine ⟨by decide, by decide, ?_, by decide⟩
  rw [gpuPasteBlend, if_neg (by decide)]
  have hmap : ∀ (q : QImage),
      (Except.ok q : Except PyErr QImage).map
        (fun t => ((tensor_to_pil t).pix 0 0).a) =
      Except.ok (((tensor_to_pil q).pix 0 0).a) := fun q => rfl
  rw [hmap, Except.ok.injEq]
  show (pyInt ((if clampOffset 0 (pil_to_tensor cImg).w (pil_to_tensor ov1).w ≤ (0 : ℤ) ∧
      (0 : ℤ) < clampOffset 0 (pil_to_tensor cImg).w (pil_to_tensor ov1).w +
        ((pil_to_tensor ov1).w : ℤ) ∧
      clampOffset 0 (pil_to_tensor cImg).h (pil_to_tensor ov1).h ≤ (0 : ℤ) ∧
      (0 : ℤ) < clampOffset 0 (pil_to_tensor cImg).h (pil_to_tensor ov1).h +
        ((pil_to_tensor ov1).h : ℤ) then
      gpuBlendPixel ((pil_to_tensor cImg).pix 0 0)
        ((pil_to_tensor ov1).pix
          ((0 : ℤ) - clampOffset 0 (pil_to_tensor cImg).w (pil_to_tensor ov1).w).toNat
          ((0 : ℤ) - clampOffset 0 (pil_to_tensor cImg).h (pil_to_tensor ov1).h).toNat)
    else (pil_to_tensor cImg).pix 0 0).a * 255)).toNat = 128
  rw [if_pos (by decide)]
  show (pyInt ((max ((0 : ℚ) / 255) ((128 : ℚ) / 255)) * 255)).toNat = 128
  rw [max_eq_right (by norm_num)]
  rw [show ((128 : ℚ) / 255) * 255 = 128 by norm_num]
  rw [pyInt_of_nonneg (by norm_num)]
  norm_num
  decide

theorem c1_blend_witness :
    pasteStep base4 ov2 3 0 2 1 false = pasteStepFast base4 ov2 3 0 2 1 false ∧
    (pilPasteMask base4 ov2 3 0).pix 3 0 =
      pilBlendPixel (base4.pix 3 0)
        (ov2.pix ((3 : ℤ) - 3).toNat ((0 : ℤ) - 0).toNat) ∧
    (pilPasteMask base4 ov2 3 0).pix 2 0 = base4.pix 2 0 ∧
    gpuPasteBlend (pil_to_tensor base4) (pil_to_tensor ov2) 3 0 =
      Except.ok (QImage.mk (pil_to_tensor base4).w (pil_to_tensor base4).h
        (fun X Y =>
          if clampOffset 3 (pil_to_tensor base4).w (pil_to_tensor ov2).w ≤ (X : ℤ) ∧
              (X : ℤ) < clampOffset 3 (pil_to_tensor base4).w (pil_to_tensor ov2).w +
                ((pil_to_tensor ov2).w : ℤ) ∧
              clampOffset 0 (pil_to_tensor base4).h (pil_to_tensor ov2).h ≤ (Y : ℤ) ∧
              (Y : ℤ) < clampOffset 0 (pil_to_tensor base4).h (pil_to_tensor ov2).h +
                ((pil_to_tensor ov2).h : ℤ) then
            gpuBlendPixel ((pil_to_tensor base4).pix X Y)
              ((pil_to_tensor ov2).pix
                ((X : ℤ) - clampOffset 3 (pil_to_tensor base4).w (pil_to_tensor ov2).w).toNat
                ((Y : ℤ) - clampOffset 0 (pil_to_tensor base4).h (pil_to_tensor ov2).h).toNat)
          else (pil_to_tensor base4).pix X Y)) :=
  ⟨c1_blend_amended.1 base4 ov2 3 0 2 1 false,
   (c1_blend_amended.2.1 base4 ov2 3 0 3 0).1 (by decide),
   (c1_blend_amended.2.1 base4 ov2 3 0 2 0).2 (by decide),
   c1_blend_amended.2.2 (pil_to_tensor base4) (pil_to_tensor ov2) 3 0
     (by decide) (by decide)⟩

/-- C8 amended: the PIL strategies never clamp the paste offset -- the
result keeps the base's size, every pixel outside the requested overlay
rectangle (placed at the requested offset) is unchanged, and the visible
part of the overlay stays at its requested position.  The tensor
strategy, however, clamps the offset into the base bounds whenever the
overlay fits (shifting the overlay when the requested offset would
overhang), and raises when the overlay is larger than the base. -/
theorem c8_truncation_amended :
    (∀ (base ov : Image) (px py : ℤ),
      (pilPasteMask base ov px py).w = base.w ∧
      (pilPasteMask base ov px py).h = base.h ∧
      ∀ (X Y : ℕ), ¬(px ≤ (X : ℤ) ∧ (X : ℤ) < px + (ov.w : ℤ) ∧
          py ≤ (Y : ℤ) ∧ (Y : ℤ) < py + (ov.h : ℤ)) →
        (pilPasteMask base ov px py).pix X Y = base.pix X Y) ∧
    (∀ (p : ℤ) (bw ow : ℕ), ow ≤ bw →
      0 ≤ clampOffset p bw ow ∧ clampOffset p bw ow ≤ (bw : ℤ) - (ow : ℤ) ∧
      (0 ≤ p → p ≤ (bw : ℤ) - (ow : ℤ) → clampOffset p bw ow = p)) ∧
    (∀ (base ov : QImage) (px py : ℤ), base.w < ov.w ∨ base.h < ov.h →
      gpuPasteBlend base ov px py = Except.error PyErr.runtimeErr) := by
  refine ⟨?_, ?_, ?_⟩
  · intro base ov px py
    refine ⟨rfl, rfl, ?_⟩
    intro X Y hc
    simp only [pilPasteMask]
    rw [if_neg]
    rintro ⟨-, -, h1, h2, h3, h4⟩
    exact hc ⟨h1, h2, h3, h4⟩
  · intro p bw ow hfit
    refine ⟨le_max_left 0 _, ?_, ?_⟩
    · rw [clampOffset]
      have h1 : min p ((bw : ℤ) - (ow : ℤ)) ≤ (bw : ℤ) - (ow : ℤ) := min_le_right _ _
      have h2 : (0 : ℤ) ≤ (bw : ℤ) - (ow : ℤ) := by
        have := hfit
        omega
      omega
    · intro hp1 hp2
      rw [clampOffset, min_eq_left hp2, max_eq_right hp1]
  · intro base ov px py hbig
    rw [gpuPasteBlend, if_pos hbig]

/-- C8 counterexample: base 4x1, opaque 2x1 overlay requested at offset
x=3.  The PIL paste truncates -- base column 2 stays untouched while
column 3 shows the overlay -- but the tensor strategy clamps the offset
to x=2 and paints column 2, so a base pixel outside the requested
overlap does not keep its value there. -/
theorem c8_truncation_cx :
    (pilPasteMask base4 ov2 3 0).pix 2 0 = Pixel.mk 0 0 0 0 ∧
    (pilPasteMask base4 ov2 3 0).pix 3 0 = Pixel.mk 255 255 255 255 ∧
    (gpuPasteBlend (pil_to_tensor base4) (pil_to_tensor ov2) 3 0).map
      (fun t => (tensor_to_pil t).pix 2 0) =
      Except.ok (Pixel.mk 255 255 255 255) ∧
    Pixel.mk 0 0 0 0 ≠ Pixel.mk 255 255 255 255 := by
  refine ⟨by decide, by decide, ?_, by decide⟩
  rw [gpuPasteBlend, if_neg (by decide)]
  have hmap : ∀ (q : QImage),
      (Except.ok q : Except PyErr QImage).map (fun t => (tensor_to_pil t).pix 2 0) =
      Except.ok ((tensor_to_pil q).pix 2 0) := fun q => rfl
  rw [hmap, Except.ok.injEq]
  show (tensor_to_pil (QImage.mk (pil_to_tensor base4).w (pil_to_tensor base4).h
    (fun X Y =>
      if clampOffset 3 (pil_to_tensor base4).w (pil_to_tensor ov2).w ≤ (X : ℤ) ∧
          (X : ℤ) < clampOffset 3 (pil_to_tensor base4).w (pil_to_tensor ov2).w +
            ((pil_to_tensor ov2).w : ℤ) ∧
          clampOffset 0 (pil_to_tensor base4).h (pil_to_tensor ov2).h ≤ (Y : ℤ) ∧
          (Y : ℤ) < clampOffset 0 (pil_to_tensor base4).h (pil_to_tensor ov2).h +
            ((pil_to_tensor ov2).h : ℤ) then
        gpuBlendPixel ((pil_to_tensor base4).pix X Y)
          ((pil_to_tensor ov2).pix
            ((X : ℤ) - clampOffset 3 (pil_to_tensor base4).w (pil_to_tensor ov2).w).toNat
            ((Y : ℤ) - clampOffset 0 (pil_to_tensor base4).h (pil_to_tensor ov2).h).toNat)
      else (pil_to_tensor base4).pix X Y))).pix 2 0 = Pixel.mk 255 255 255 255
  show Pixel.mk
    (pyInt (((if (2 : ℤ) ≤ 2 ∧ (2 : ℤ) < 2 + 2 ∧ (0 : ℤ) ≤ 0 ∧ (0 : ℤ) < 0 + 1 then
      gpuBlendPixel ((pil_to_tensor base4).pix 2 0) ((pil_to_tensor ov2).pix 0 0)
      else (pil_to_tensor base4).pix 2 0)).r * 255)).toNat
    (pyInt (((if (2 : ℤ) ≤ 2 ∧ (2 : ℤ) < 2 + 2 ∧ (0 : ℤ) ≤ 0 ∧ (0 : ℤ) < 0 + 1 then
      gpuBlendPixel ((pil_to_tensor base4).pix 2 0) ((pil_to_tensor ov2).pix 0 0)
      else (pil_to_tensor base4).pix 2 0)).g * 255)).toNat
    (pyInt (((if (2 : ℤ) ≤ 2 ∧ (2 : ℤ) < 2 + 2 ∧ (0 : ℤ) ≤ 0 ∧ (0 : ℤ) < 0 + 1 then
      gpuBlendPixel ((pil_to_tensor base4).pix 2 0) ((pil_to_tensor ov2).pix 0 0)
      else (pil_to_tensor base4).pix 2 0)).b * 255)).toNat
    (pyInt (((if (2 : ℤ) ≤ 2 ∧ (2 : ℤ) < 2 + 2 ∧ (0 : ℤ) ≤ 0 ∧ (0 : ℤ) < 0 + 1 then
      gpuBlendPixel ((pil_to_tensor base4).pix 2 0) ((pil_to_tensor ov2).pix 0 0)
      else (pil_to_tensor base4).pix 2 0)).a * 255)).toNat
    = Pixel.mk 255 255 255 255
  rw [if_pos (by decide)]
  show Pixel.mk
    (pyInt (((255 : ℚ) / 255 * ((255 : ℚ) / 255) + (0 : ℚ) / 255 * (1 - (255 : ℚ) / 255)) * 255)).toNat
    (pyInt (((255 : ℚ) / 255 * ((255 : ℚ) / 255) + (0 : ℚ) / 255 * (1 - (255 : ℚ) / 255)) * 255)).toNat
    (pyInt (((255 : ℚ) / 255 * ((255 : ℚ) / 255) + (0 : ℚ) / 255 * (1 - (255 : ℚ) / 255)) * 255)).toNat
    (pyInt ((max ((0 : ℚ) / 255) ((255 : ℚ) / 255)) * 255)).toNat
    = Pixel.mk 255 255 255 255
  rw [show ((255 : ℚ) / 255 * ((255 : ℚ) / 255) + (0 : ℚ) / 255 * (1 - (255 : ℚ) / 255)) * 255
      = 255 by norm_num]
  rw [max_eq_right (by norm_num : ((0 : ℚ) / 255) ≤ (255 : ℚ) / 255)]
  rw [show ((255 : ℚ) / 255) * 255 = 255 by norm_num]
  rw [pyInt_of_nonneg (by norm_num)]
  norm_num
  decide

theorem c8_truncation_witness :
    (0 ≤ clampOffset 5 4 2 ∧ clampOffset 5 4 2 ≤ (4 : ℤ) - (2 : ℤ) ∧
      (0 ≤ (5 : ℤ) → (5 : ℤ) ≤ (4 : ℤ) - (2 : ℤ) → clampOffset 5 4 2 = 5)) ∧
    gpuPasteBlend (pil_to_tensor cImg) (pil_to_tensor ov2) 0 0 =
      Except.error PyErr.runtimeErr ∧
    (pilPasteMask base4 ov2 3 0).pix 0 0 = base4.pix 0 0 :=
  ⟨c8_truncation_amended.2.1 5 4 2 (by decide),
   c8_truncation_amended.2.2 (pil_to_tensor cImg) (pil_to_tensor ov2) 0 0
     (by decide),
   (c8_truncation_amended.1 base4 ov2 3 0).2.2 0 0 (by decide)⟩

theorem resizeDims_eq_floor (ow oh w h : ℕ) (how : 0 < ow) (hoh : 0 < oh)
    (hw : 0 < w) (hh : 0 < h) :
    resizeDims ow oh (w : ℚ) (h : ℚ) =
      (⌊(ow : ℚ) * rScale ow oh (w : ℚ) (h : ℚ)⌋,
       ⌊(oh : ℚ) * rScale ow oh (w : ℚ) (h : ℚ)⌋) := by
  have how' : (0 : ℚ) < (ow : ℚ) := by exact_mod_cast how
  have hoh' : (0 : ℚ) < (oh : ℚ) := by exact_mod_cast hoh
  have hw' : (0 : ℚ) < (w : ℚ) := by exact_mod_cast hw
  have hh' : (0 : ℚ) < (h : ℚ) := by exact_mod_cast hh
  simp only [resizeDims, rScale]
  by_cases hc : (ow : ℚ) / (oh : ℚ) > (w : ℚ) / (h : ℚ)
  · have hwoh : (w : ℚ) * (oh : ℚ) < (ow : ℚ) * (h : ℚ) := by
      rw [gt_iff_lt, div_lt_div_iff₀ hh' hoh'] at hc
      linarith
    have hlt : (w : ℚ) / (ow : ℚ) ≤ (h : ℚ) / (oh : ℚ) := by
      rw [div_le_div_iff₀ how' hoh']
      linarith
    rw [if_pos hc, min_eq_left hlt, Prod.mk.injEq]
    have e1 : (ow : ℚ) * ((w : ℚ) / (ow : ℚ)) = (w : ℚ) := by field_simp
    have e2 : (oh : ℚ) * ((w : ℚ) / (ow : ℚ)) = (w : ℚ) / ((ow : ℚ) / (oh : ℚ)) := by
      rw [div_div_eq_mul_div]
      ring
    constructor
    · rw [e1, pyInt_of_nonneg hw'.le]
    · rw [e2, pyInt_of_nonneg]
      apply le_of_lt
      apply div_pos hw'
      exact div_pos how' hoh'
  · have hc' : (ow : ℚ) / (oh : ℚ) ≤ (w : ℚ) / (h : ℚ) := not_lt.mp hc
    have hwoh : (ow : ℚ) * (h : ℚ) ≤ (w : ℚ) * (oh : ℚ) := by
      rw [div_le_div_iff₀ hoh' hh'] at hc'
      linarith
    have hle : (h : ℚ) / (oh : ℚ) ≤ (w : ℚ) / (ow : ℚ) := by
      rw [div_le_div_iff₀ hoh' how']
      linarith
    rw [if_neg hc, min_eq_right hle, Prod.mk.injEq]
    have e1 : (oh : ℚ) * ((h : ℚ) / (oh : ℚ)) = (h : ℚ) := by field_simp
    have e2 : (ow : ℚ) * ((h : ℚ) / (oh : ℚ)) = (h : ℚ) * ((ow : ℚ) / (oh : ℚ)) := by
      ring
    constructor
    · rw [e2, pyInt_of_nonneg]
      apply le_of_lt
      apply mul_pos hh'
      exact div_pos how' hoh'
    · rw [e1, pyInt_of_nonneg hh'.le]

theorem resize_image_eq (res : Resampler) (img : Image) (width height : ℚ)
    (hoh : img.h ≠ 0) (hh : height ≠ 0) (how : img.w ≠ 0) :
    resize_image res img width height true =
      pilResize res img (resizeDims img.w img.h width height).1
        (resizeDims img.w img.h width height).2 := by
  simp only [resize_image, resizeDims]
  rw [if_neg (by simp)]
  rw [if_neg hoh]
  rw [if_neg hh]
  by_cases hc : (img.w : ℚ) / (img.h : ℚ) > width / height
  · have hA : ((img.w : ℚ) / (img.h : ℚ)) ≠ 0 :=
      div_ne_zero (Nat.cast_ne_zero.mpr how) (Nat.cast_ne_zero.mpr hoh)
    simp only [if_pos hc, if_neg hA]
  · simp only [if_neg hc]

/-- C3 amended: with maintainAspect the resize step truncates with
`int()`, not `round`: the fitted dimensions are
`(newW, newH) = (⌊ow*scale⌋, ⌊oh*scale⌋)` with `scale = min(w/ow, h/oh)`
(on the fitting axis the floor is exact).  Consequently newW ≤ w,
newH ≤ h, and at least one axis equals its box dimension exactly. -/
theorem c3_resize_amended (res : Resampler) (img : Image) (w h : ℕ)
    (how : 0 < img.w) (hoh : 0 < img.h) (hw : 0 < w) (hh : 0 < h) :
    resize_image res img (w : ℚ) (h : ℚ) true =
      Except.ok (Image.mk img.mode
        (resizeDims img.w img.h (w : ℚ) (h : ℚ)).1.toNat
        (resizeDims img.w img.h (w : ℚ) (h : ℚ)).2.toNat
        (res img (resizeDims img.w img.h (w : ℚ) (h : ℚ)).1.toNat
          (resizeDims img.w img.h (w : ℚ) (h : ℚ)).2.toNat)) ∧
    (resizeDims img.w img.h (w : ℚ) (h : ℚ)).1 =
      ⌊(img.w : ℚ) * rScale img.w img.h (w : ℚ) (h : ℚ)⌋ ∧
    (resizeDims img.w img.h (w : ℚ) (h : ℚ)).2 =
      ⌊(img.h : ℚ) * rScale img.w img.h (w : ℚ) (h : ℚ)⌋ ∧
    (resizeDims img.w img.h (w : ℚ) (h : ℚ)).1 ≤ (w : ℤ) ∧
    (resizeDims img.w img.h (w : ℚ) (h : ℚ)).2 ≤ (h : ℤ) ∧
    ((resizeDims img.w img.h (w : ℚ) (h : ℚ)).1 = (w : ℤ) ∨
      (resizeDims img.w img.h (w : ℚ) (h : ℚ)).2 = (h : ℤ)) := by
  have how' : (0 : ℚ) < (img.w : ℚ) := by exact_mod_cast how
  have hoh' : (0 : ℚ) < (img.h : ℚ) := by exact_mod_cast hoh
  have hw' : (0 : ℚ) < (w : ℚ) := by exact_mod_cast hw
  have hh' : (0 : ℚ) < (h : ℚ) := by exact_mod_cast hh
  have heq := resizeDims_eq_floor img.w img.h w h how hoh hw hh
  have e1 : (resizeDims img.w img.h (w : ℚ) (h : ℚ)).1 =
      ⌊(img.w : ℚ) * rScale img.w img.h (w : ℚ) (h : ℚ)⌋ := by rw [heq]
  have e2 : (resizeDims img.w img.h (w : ℚ) (h : ℚ)).2 =
      ⌊(img.h : ℚ) * rScale img.w img.h (w : ℚ) (h : ℚ)⌋ := by rw [heq]
  have hs0 : 0 ≤ rScale img.w img.h (w : ℚ) (h : ℚ) := by
    rw [rScale]
    exact le_min (by positivity) (by positivity)
  have hd1 : 0 ≤ (resizeDims img.w img.h (w : ℚ) (h : ℚ)).1 := by
    rw [e1]
    exact Int.floor_nonneg.mpr (by positivity)
  have hd2 : 0 ≤ (resizeDims img.w img.h (w : ℚ) (h : ℚ)).2 := by
    rw [e2]
    exact Int.floor_nonneg.mpr (by positivity)
  have hb1 : (resizeDims img.w img.h (w : ℚ) (h : ℚ)).1 ≤ (w : ℤ) := by
    rw [e1]
    have : (img.w : ℚ) * rScale img.w img.h (w : ℚ) (h : ℚ) ≤ (w : ℚ) := by
      calc (img.w : ℚ) * rScale img.w img.h (w : ℚ) (h : ℚ)
          ≤ (img.w : ℚ) * ((w : ℚ) / (img.w : ℚ)) := by
            apply mul_le_mul_of_nonneg_left _ how'.le
            rw [rScale]
            exact min_le_left _ _
        _ = (w : ℚ) := by field_simp
    calc ⌊(img.w : ℚ) * rScale img.w img.h (w : ℚ) (h : ℚ)⌋ ≤ ⌊(w : ℚ)⌋ :=
          Int.floor_le_floor this
      _ = (w : ℤ) := Int.floor_natCast w
  have hb2 : (resizeDims img.w img.h (w : ℚ) (h : ℚ)).2 ≤ (h : ℤ) := by
    rw [e2]
    have : (img.h : ℚ) * rScale img.w img.h (w : ℚ) (h : ℚ) ≤ (h : ℚ) := by
      calc (img.h : ℚ) * rScale img.w img.h (w : ℚ) (h : ℚ)
          ≤ (img.h : ℚ) * ((h : ℚ) / (img.h : ℚ)) := by
            apply mul_le_mul_of_nonneg_left _ hoh'.le
            rw [rScale]
            exact min_le_right _ _
        _ = (h : ℚ) := by field_simp
    calc ⌊(img.h : ℚ) * rScale img.w img.h (w : ℚ) (h : ℚ)⌋ ≤ ⌊(h : ℚ)⌋ :=
          Int.floor_le_floor this
      _ = (h : ℤ) := Int.floor_natCast h
  refine ⟨?_, e1, e2, hb1, hb2, ?_⟩
  · rw [resize_image_eq res img _ _ (Nat.pos_iff_ne_zero.mp hoh)
      (Nat.cast_ne_zero.mpr (Nat.pos_iff_ne_zero.mp hh)) (Nat.pos_iff_ne_zero.mp how)]
    rw [pilResize, if_neg (by omega)]
  · by_cases hmin : (w : ℚ) / (img.w : ℚ) ≤ (h : ℚ) / (img.h : ℚ)
    · left
      rw [e1, rScale, min_eq_left hmin]
      rw [show (img.w : ℚ) * ((w : ℚ) / (img.w : ℚ)) = (w : ℚ) by field_simp]
      exact Int.floor_natCast w
    · right
      rw [e2, rScale, min_eq_right (le_of_not_le hmin)]
      rw [show (img.h : ℚ) * ((h : ℚ) / (img.h : ℚ)) = (h : ℚ) by field_simp]
      exact Int.floor_natCast h

/-- C3 counterexample: a 3x2 overlay in a 4x4 box.  The code truncates
and produces height 2 (`int(4 / 1.5)`), while the claimed rounding
formula gives `round(2 * 4/3) = 3`. -/
theorem c3_resize_cx :
    resizeDims 3 2 4 4 = (4, 2) ∧ specResizeDims 3 2 4 4 = (4, 3) ∧
    ((4 : ℤ), (2 : ℤ)) ≠ ((4 : ℤ), (3 : ℤ)) := by
  refine ⟨?_, ?_, by decide⟩
  · simp only [resizeDims]
    rw [if_pos (by norm_num)]
    rw [Prod.mk.injEq]
    constructor
    · rw [pyInt_of_nonneg (by norm_num)]
      norm_num
    · rw [pyInt_of_nonneg (by positivity)]
      norm_num
  · simp only [specResizeDims, rScale, ratRound]
    rw [min_eq_left (by norm_num)]
    rw [Prod.mk.injEq]
    constructor
    · norm_num
    · norm_num

theorem c3_resize_witness :
    resize_image cRes img3x2 (4 : ℚ) (4 : ℚ) true =
      Except.ok (Image.mk img3x2.mode
        (resizeDims img3x2.w img3x2.h (4 : ℚ) (4 : ℚ)).1.toNat
        (resizeDims img3x2.w img3x2.h (4 : ℚ) (4 : ℚ)).2.toNat
        (cRes img3x2 (resizeDims img3x2.w img3x2.h (4 : ℚ) (4 : ℚ)).1.toNat
          (resizeDims img3x2.w img3x2.h (4 : ℚ) (4 : ℚ)).2.toNat)) ∧
    (resizeDims img3x2.w img3x2.h (4 : ℚ) (4 : ℚ)).1 ≤ ((4 : ℕ) : ℤ) ∧
    (resizeDims img3x2.w img3x2.h (4 : ℚ) (4 : ℚ)).2 ≤ ((4 : ℕ) : ℤ) ∧
    ((resizeDims img3x2.w img3x2.h (4 : ℚ) (4 : ℚ)).1 = ((4 : ℕ) : ℤ) ∨
      (resizeDims img3x2.w img3x2.h (4 : ℚ) (4 : ℚ)).2 = ((4 : ℕ) : ℤ)) := by
  have h := c3_resize_amended cRes img3x2 4 4 (by decide) (by decide)
    (by decide) (by decide)
  exact ⟨h.1, h.2.2.2.1, h.2.2.2.2.1, h.2.2.2.2.2⟩

theorem c2_batch_witness :
    (appVariantLoop cRes cRotK (Except.ok cImg) [(Except.ok cImg, area1)] false).length =
      ([(Except.ok cImg, area1)] : List (Except PyErr Image × DArea)).length ∧
    eOk (Except.ok cImg : Except PyErr Image) = true :=
  ⟨(c2_batch_amended cRes cRotK (Except.ok cImg) [(Except.ok cImg, area1)] false).1,
   (c2_batch_amended cRes cRotK (Except.ok cImg) [(Except.ok cImg, area1)] false).2.2.2
     cRes cRes cRotK [Except.ok cImg] [area1] [Encoded.pngBytes cOut] cBatchRun
     (Except.ok cImg) (by simp)⟩

end Ldz
